import Mathlib

/-!
Shallow embedding of the conversational shopping core in
`AIShoppingCompanion/services.py` (class `AIShoppingService`), together with
theorems settling the specification claims about it.

Modelling conventions:
* Python dicts holding optional keys become structures with `Option` fields;
  `dict.get(k, d)` becomes `Option.getD`.
* Python dicts used as ordered key-value maps (session store, answered
  filters) become association lists with insert-or-update semantics that
  preserve insertion order, exactly as CPython dicts do.
* Python floats in the scoring arithmetic become `ℚ`; the arithmetic involved
  (`max`, subtraction, comparison) is exact at these magnitudes and the spec
  itself only asks for agreement within floating tolerance.
* The three external HTTP ports (language model, product search, scoring) are
  modelled as an oracle environment `Env` describing the outcome of each call
  a single message/turn can make.  The query text sent to the search port is
  not modelled, since no claim depends on it; the oracle outcome stands for
  whatever the port returns for the request of the current turn.
* `sorted(..., key=..., reverse=True)` (a stable sort) is modelled by a
  structurally recursive insertion sort with the same comparator; stable
  sorts with one comparator are extensionally unique, and the stability and
  sortedness of the model are proved below rather than assumed.
* `uuid.uuid4()` (a fresh unique identifier per formatted product) is
  modelled by a caller-supplied generator `fresh : Nat → Nat` applied to the
  position of the item; freshness of the real generator corresponds to
  injectivity of `fresh`.
-/

namespace Shop

/-! ## Small Python-string helpers -/

/-- `prefixCheck n h` decides whether `n` is a prefix of `h`. -/
def prefixCheck : List Char → List Char → Bool
  | [], _ => true
  | _ :: _, [] => false
  | a :: as, b :: bs => a = b && prefixCheck as bs

/-- `infixCheck n h` decides whether `n` occurs contiguously in `h`. -/
def infixCheck (needle : List Char) : List Char → Bool
  | [] => prefixCheck needle []
  | c :: rest => prefixCheck needle (c :: rest) || infixCheck needle rest

/-- Python `needle in hay` on strings: substring containment. -/
def strContains (hay needle : String) : Bool :=
  infixCheck needle.toList hay.toList

/-- Python `str.lower()` (ASCII; all the vocabulary below is ASCII).  The
core-library `String.toLower` maps `Char.toLower` over the string exactly
like this, but through well-founded recursion; this structural version keeps
the whole embedding evaluable inside the kernel. -/
def pyLower (s : String) : String :=
  ⟨s.toList.map Char.toLower⟩

/-- Python `str.strip()` with no argument: drop surrounding whitespace. -/
def pyStrip (s : String) : String :=
  ⟨((s.toList.dropWhile Char.isWhitespace).reverse.dropWhile
      Char.isWhitespace).reverse⟩

/-- Fuelled worker for `pySplitOn`; the fuel only bounds the recursion depth
(one unit per inspected character suffices) so the definition stays
structural. -/
def splitOnFuel (sep : List Char) : Nat → List Char → List Char →
    List (List Char)
  | 0, l, acc => [acc.reverse ++ l]
  | Nat.succ fuel, l, acc =>
    match l with
    | [] => [acc.reverse]
    | c :: rest =>
      if prefixCheck sep l then
        acc.reverse :: splitOnFuel sep fuel (l.drop sep.length) []
      else
        splitOnFuel sep fuel rest (c :: acc)

/-- Python `s.split(sep)` for a non-empty separator: non-overlapping
occurrences, first match wins, separators dropped. -/
def pySplitOn (s sep : String) : List String :=
  if sep.toList = [] then [s]
  else (splitOnFuel sep.toList (s.toList.length + 1) s.toList []).map
    (fun cs => String.mk cs)

/-- Python `sep.join(parts)`. -/
def pyJoin (sep : String) (parts : List String) : String :=
  match parts with
  | [] => ""
  | p :: ps => ps.foldl (fun acc q => acc ++ sep ++ q) p

/-- Digits of a decimal literal to a natural number; `none` when empty or a
non-digit appears (the failure case of Python `int(...)`). -/
def digitsToNat (cs : List Char) : Option Nat :=
  if cs ≠ [] ∧ cs.all Char.isDigit then
    some (cs.foldl (fun n c => 10 * n + (c.toNat - 48)) 0)
  else none

/-- Python `int(s)`: optional sign, surrounding whitespace, decimal digits;
raises (here: `none`) otherwise. -/
def pyInt (s : String) : Option Int :=
  match (pyStrip s).toList with
  | '-' :: rest => (digitsToNat rest).map (fun n => -(n : Int))
  | '+' :: rest => (digitsToNat rest).map (fun n => (n : Int))
  | cs => (digitsToNat cs).map (fun n => (n : Int))

/-- Python `str.title()` restricted to what the filter keys need: uppercase a
letter that follows a non-letter, lowercase a letter that follows a letter. -/
def pyTitleAux : Bool → List Char → List Char
  | _, [] => []
  | prevAlpha, c :: cs =>
    (if c.isAlpha then (if prevAlpha then c.toLower else c.toUpper) else c)
      :: pyTitleAux c.isAlpha cs

def pyTitle (s : String) : String :=
  ⟨pyTitleAux false s.toList⟩

/-- Python `str(x)` for an optional string (`str(None) = "None"`), used where
an f-string interpolates a session field. -/
def pyStr (o : Option String) : String :=
  o.getD "None"

/-! ## Ordered dictionaries (CPython semantics)

An insert on a present key keeps the key at its position and replaces the
value; an insert on an absent key appends at the end. -/

def dictUpsert {α : Type} (d : List (String × α)) (k : String) (v : α) :
    List (String × α) :=
  if d.any (fun p => p.1 = k) then
    d.map (fun p => if p.1 = k then (k, v) else p)
  else d ++ [(k, v)]

def dictLookup {α : Type} (d : List (String × α)) (k : String) : Option α :=
  (d.find? (fun p => p.1 = k)).map Prod.snd

/-! ## Data model -/

/-- A product dict as it circulates through the service: raw retrieval
results and fallback-catalog entries carry `none` for `relevance_score` and
`explanation`; scoring fills them in.  Absent dict keys are `none`
(`services.py` builds raw listings via `result.get(k, default)`). -/
structure Product where
  title : Option String := none
  price : Option String := none
  description : Option String := none
  image_url : Option String := none
  rating : Option ℚ := none
  reviews_count : Option Int := none
  source : Option String := none
  url : Option String := none
  relevance_score : Option ℚ := none
  explanation : Option String := none
  deriving Repr, DecidableEq

/-- A formatted product as produced by `_rank_products` (services.py 377-402):
every display field filled, a fresh identifier, fixed currency and
availability. -/
structure FormattedProduct where
  id : Nat
  title : String
  description : String
  price : String
  currency : String
  image_url : String
  rating : Option ℚ
  reviews_count : Option Int
  availability : String
  source : String
  url : String
  relevance_score : ℚ
  explanation : String
  deriving Repr, DecidableEq

/-- One refinement filter of the static catalog (services.py 504-611). -/
structure Filter where
  name : String
  param : String
  options : List String
  deriving Repr, DecidableEq

/-- Session stages (services.py uses the strings "initial", "getting_filters",
"searching"). -/
inductive Stage where
  | initial
  | gettingFilters
  | searching
  deriving Repr, DecidableEq

/-- Per-session conversational state (services.py 87-94). -/
structure Session where
  stage : Stage
  product_keyword : Option String
  current_filters : List (String × String)
  available_filters : List Filter
  current_filter_index : Nat
  deriving Repr, DecidableEq

/-- The fresh session installed on first contact and after errors/search
completion (services.py 88-94 and 165-171). -/
def freshSession : Session :=
  { stage := .initial
    product_keyword := none
    current_filters := []
    available_filters := []
    current_filter_index := 0 }

/-- The process-wide `self.user_sessions` map. -/
abbrev Sessions := List (String × Session)

/-- Response dict of `process_chat_message`.  The `timestamp` field
(`datetime.now()`) is not modelled.  Note the products of a chat response are
raw `Product` dicts: the chat path never formats them. -/
structure ChatResponse where
  message : String
  has_products : Bool
  products : List Product
  filter_options : List String := []
  filter_name : Option String := none
  deriving Repr, DecidableEq

/-- Response dict of `process_search_query`; `search_id` (a fresh UUID) and
the timestamp are not modelled, no claim mentions them. -/
structure SearchResult where
  products : List FormattedProduct
  explanation : String
  deriving Repr, DecidableEq

/-! ## The oracle environment for external ports -/

/-- Outcome of one call to the SerpAPI search port. -/
inductive SerpOutcome where
  /-- HTTP 200 with the listed shopping results. -/
  | ok (results : List Product)
  /-- HTTP 429 (rate limited). -/
  | rateLimited
  /-- any other HTTP status. -/
  | httpError
  /-- a transport-level exception during the call. -/
  | netFail
  deriving Repr, DecidableEq

/-- Outcome of one per-candidate call to the AI scoring port. -/
inductive AiOutcome where
  /-- HTTP 200 with parseable JSON carrying a numeric `relevance_score` and a
  string `explanation`. -/
  | ok (score : ℚ) (expl : String)
  /-- HTTP 200 with parseable JSON whose `relevance_score` entry is `null` (or
  another value that raises when compared with a number): `product.update`
  (services.py 345) injects it anyway, and `sorted` inside `_rank_products`
  (line 380) raises once it compares that key. -/
  | okGarbage
  /-- HTTP 200 but the body is not valid JSON. -/
  | badJson
  /-- non-200 status or an exception during this candidate. -/
  | callFail
  deriving Repr, DecidableEq

/-- Oracle describing the configuration and the external-world outcomes seen
while handling one request.  `fault` models the antecedent of the spec
sentence on unhandled exceptions: an unexpected exception raised while the
message is being dispatched inside the `try` of `process_chat_message`
(services.py 85-188); the corresponding handler is services.py 189-196. -/
structure Env where
  serpapiKey : Bool
  aiKey : Bool
  serp : SerpOutcome
  ai : Nat → AiOutcome
  aiSessionFail : Bool
  fault : Bool

/-! ## Keyword extraction (services.py 480-502) -/

def product_keywords : List String :=
  ["smartphone", "phone", "mobile", "iphone", "android",
   "laptop", "computer", "macbook", "chromebook",
   "speakers", "speaker", "bluetooth speaker",
   "earphones", "headphones", "earbuds", "airpods",
   "tablet", "ipad",
   "watch", "smartwatch", "fitness tracker",
   "camera", "dslr", "mirrorless",
   "tv", "television", "smart tv",
   "mouse", "keyboard", "webcam",
   "charger", "power bank", "cable",
   "case", "cover", "screen protector"]

/-- First vocabulary keyword occurring in the lowercased message, if any. -/
def extract_product_keyword (message : String) : Option String :=
  let message_lower := pyLower message
  product_keywords.find? (fun keyword => strContains message_lower keyword)

/-! ## Filter catalog (services.py 504-611) -/

def smartphoneFilters : List Filter :=
  [⟨"Brand", "brand",
    ["Samsung", "Apple", "OnePlus", "Xiaomi", "Realme", "Oppo", "Vivo",
     "Google", "Nothing"]⟩,
   ⟨"Price Range", "price",
    ["Under ₹10,000", "₹10,000 - ₹20,000", "₹20,000 - ₹40,000",
     "₹40,000 - ₹60,000", "Above ₹60,000"]⟩,
   ⟨"Storage", "storage", ["64GB", "128GB", "256GB", "512GB", "1TB"]⟩,
   ⟨"RAM", "ram", ["4GB", "6GB", "8GB", "12GB", "16GB"]⟩]

def laptopFilters : List Filter :=
  [⟨"Brand", "brand",
    ["HP", "Dell", "Lenovo", "Asus", "Acer", "Apple", "MSI", "Samsung"]⟩,
   ⟨"Price Range", "price",
    ["Under ₹30,000", "₹30,000 - ₹50,000", "₹50,000 - ₹80,000",
     "₹80,000 - ₹1,20,000", "Above ₹1,20,000"]⟩,
   ⟨"Processor", "processor",
    ["Intel Core i3", "Intel Core i5", "Intel Core i7", "Intel Core i9",
     "AMD Ryzen 5", "AMD Ryzen 7", "Apple M1/M2"]⟩,
   ⟨"RAM", "ram", ["4GB", "8GB", "16GB", "32GB"]⟩]

def speakerFilters : List Filter :=
  [⟨"Brand", "brand",
    ["JBL", "Sony", "Bose", "Marshall", "Ultimate Ears", "Boat",
     "Portronics"]⟩,
   ⟨"Price Range", "price",
    ["Under ₹2,000", "₹2,000 - ₹5,000", "₹5,000 - ₹10,000",
     "₹10,000 - ₹20,000", "Above ₹20,000"]⟩,
   ⟨"Connectivity", "connectivity",
    ["Bluetooth", "Wi-Fi", "Wired", "Multi-room"]⟩]

def earphoneFilters : List Filter :=
  [⟨"Brand", "brand",
    ["Apple", "Sony", "Bose", "JBL", "Sennheiser", "Boat", "OnePlus",
     "Samsung"]⟩,
   ⟨"Price Range", "price",
    ["Under ₹1,500", "₹1,500 - ₹5,000", "₹5,000 - ₹10,000",
     "₹10,000 - ₹20,000", "Above ₹20,000"]⟩,
   ⟨"Type", "type",
    ["True Wireless", "Wireless", "Wired", "Over-ear", "On-ear", "In-ear"]⟩,
   ⟨"Features", "features",
    ["Active Noise Cancellation", "Wireless Charging", "Water Resistant",
     "Gaming", "Sports"]⟩]

def defaultFilters : List Filter :=
  [⟨"Price Range", "price",
    ["Under ₹1,000", "₹1,000 - ₹5,000", "₹5,000 - ₹10,000",
     "₹10,000 - ₹25,000", "Above ₹25,000"]⟩,
   ⟨"Brand", "brand", ["Popular Brands", "Premium Brands", "Budget Brands"]⟩]

def get_available_filters (keyword : String) : List Filter :=
  if ["smartphone", "phone", "mobile", "iphone", "android"].contains keyword
  then smartphoneFilters
  else if ["laptop", "computer", "macbook", "chromebook"].contains keyword
  then laptopFilters
  else if ["speakers", "speaker", "bluetooth speaker"].contains keyword
  then speakerFilters
  else if ["earphones", "headphones", "earbuds", "airpods"].contains keyword
  then earphoneFilters
  else defaultFilters

/-! ## Fallback catalog (services.py 421-478) -/

def smartphoneFallback : List Product :=
  [{ title := some "Samsung Galaxy A54 5G (Awesome Blue, 128GB)"
     price := some "₹38,999"
     description := some
       "6.4-inch Super AMOLED display, 50MP triple camera, 5000mAh battery"
     image_url := some
       "https://images.samsung.com/is/image/samsung/p6pim/in/2202/gallery/in-galaxy-a54-5g-a546-sm-a546elvcins-534851043"
     rating := some (43 / 10)
     reviews_count := some 15420
     source := some "Amazon"
     url := some "https://amazon.in" },
   { title := some "Realme 11 Pro+ 5G (Oasis Green, 256GB)"
     price := some "₹31,999"
     description := some
       "6.7-inch curved AMOLED, 200MP camera, 100W SuperVOOC charging"
     image_url := some "https://image01.realme.net/general/20230510/1683709141064.jpg"
     rating := some (42 / 10)
     reviews_count := some 8934
     source := some "Flipkart"
     url := some "https://flipkart.com" }]

def laptopFallback : List Product :=
  [{ title := some "HP Pavilion 15 Intel Core i5 12th Gen Laptop"
     price := some "₹56,999"
     description := some "15.6-inch FHD, 8GB RAM, 512GB SSD, Windows 11"
     image_url := some
       "https://ssl-product-images.www8-hp.com/digmedialib/prodimg/lowres/c08140467.png"
     rating := some (41 / 10)
     reviews_count := some 2341
     source := some "HP Store"
     url := some "https://hp.com" }]

def genericFallback (query : String) : Product :=
  { title := some ("Sample Product for " ++ query)
    price := some "₹15,999"
    description := some "High-quality product matching your search criteria"
    image_url := some "https://via.placeholder.com/300x200?text=Product"
    rating := some 4
    reviews_count := some 500
    source := some "Sample Store"
    url := some "#" }

def get_fallback_products (query : String) : List Product :=
  let query_lower := pyLower query
  if ["smartphone", "phone", "mobile"].any (fun w => strContains query_lower w)
  then smartphoneFallback
  else if ["laptop", "computer"].any (fun w => strContains query_lower w)
  then laptopFallback
  else [genericFallback query]

/-! ## Filtered fallback (services.py 715-756) -/

/-- The "any brand" sentinel options that switch the brand filter off
(services.py 725; the same list guards the query construction at 624). -/
def sentinelBrands : List String :=
  ["Popular Brands", "Premium Brands", "Budget Brands"]

/-- Strip the currency sign and the thousands separators, as
`.replace("₹", "").replace(",", "")` does; both patterns are single
characters, so the two replacements amount to one filter. -/
def stripCurrency (s : String) : String :=
  ⟨s.toList.filter (fun c => !(c == '₹' || c == ','))⟩

/-- `.replace(",", "")` alone (services.py 736). -/
def removeCommas (s : String) : String :=
  ⟨s.toList.filter (fun c => !(c == ','))⟩

/-- Brand test of the filtered fallback loop (services.py 723-727): keep the
product unless a non-sentinel brand was chosen whose lowercased text does not
occur in the lowercased title.  (Fallback-catalog entries always carry a
title; an absent one reads as the empty string.) -/
def brandKeep (filters : List (String × String)) (p : Product) : Bool :=
  match dictLookup filters "brand" with
  | none => true
  | some brand =>
    if sentinelBrands.contains brand then true
    else strContains (pyLower (p.title.getD "")) (pyLower brand)

/-- Price test of the filtered fallback loop (services.py 729-746).  The
whole block sits in `try: ... except: pass`, so any parse failure — of the
product price or of the filter bounds — keeps the product. -/
def priceKeep (filters : List (String × String)) (p : Product) : Bool :=
  match dictLookup filters "price" with
  | none => true
  | some price_filter =>
    match pyInt (stripCurrency (p.price.getD "₹0")) with
    | none => true
    | some price_num =>
      if strContains price_filter "Under ₹" then
        match (pySplitOn price_filter "₹")[1]? with
        | none => true
        | some second =>
          match pyInt (removeCommas second) with
          | none => true
          | some max_price => decide (price_num < max_price)
      else if strContains price_filter "-" then
        let prices := pySplitOn (stripCurrency price_filter) " - "
        if prices.length = 2 then
          match pyInt (pyStrip (prices.getD 0 "")), pyInt (pyStrip (prices.getD 1 "")) with
          | some min_price, some max_price =>
            decide (min_price ≤ price_num ∧ price_num ≤ max_price)
          | _, _ => true
        else true
      else true

/-- The `"Brand: Samsung, Price: ..."` summary appended to each kept
product (services.py 748-753). -/
def filterInfo (filters : List (String × String)) : String :=
  pyJoin ", " (filters.map (fun kv => pyTitle kv.1 ++ ": " ++ kv.2))

/-- The kept product with the filter summary written into its explanation
(services.py 753). -/
def withFilterExplanation (filters : List (String × String)) (p : Product) :
    Product :=
  let expl := "Matches your filters - " ++ filterInfo filters
  { p with explanation := some expl }

def get_filtered_fallback_products (keyword : String)
    (filters : List (String × String)) : List Product :=
  let base_products := get_fallback_products keyword
  let filtered_products := base_products.filterMap (fun p =>
    if brandKeep filters p && priceKeep filters p then
      some (withFilterExplanation filters p)
    else none)
  if filtered_products.isEmpty then base_products else filtered_products

/-! ## Canned conversational replies (services.py 758-777) -/

def generate_conversational_response (message : String) : String :=
  let message_lower := pyLower message
  if ["hello", "hi", "hey", "good morning", "good afternoon",
      "good evening"].any (fun g => strContains message_lower g) then
    "Hello! I\x27m your AI Shopping Agent. I can help you find products based on your needs. Just tell me what you\x27re looking for!"
  else if ["thank you", "thanks", "appreciate"].any
      (fun t => strContains message_lower t) then
    "You\x27re welcome! Is there anything else I can help you find today?"
  else if ["help", "how", "what can you do"].any
      (fun h => strContains message_lower h) then
    "I can help you find products by understanding your natural language queries. For example, you can say \x27I need a smartphone under ₹20000 with good camera\x27 and I\x27ll find the best options for you!"
  else
    "I\x27m here to help you find products! Could you tell me what you\x27re looking for? I can search for electronics, clothing, accessories, and much more."

/-! ## Retrieval (services.py 246-294, 613-615, 617-713) -/

/-- A raw SerpAPI shopping result (arbitrary JSON object; only the keys the
code reads are modelled). -/
structure RawResult where
  title : Option String := none
  price : Option String := none
  snippet : Option String := none
  thumbnail : Option String := none
  rating : Option ℚ := none
  reviews : Option Int := none
  source : Option String := none
  link : Option String := none
  deriving Repr, DecidableEq

/-- Mapping of one shopping result into a product dict (services.py 268-280;
identically 689-701).  The `raw_data` passthrough key is not modelled: nothing
ever reads it. -/
def mapSerpResult (r : RawResult) : Product :=
  { title := some (r.title.getD "")
    price := some (r.price.getD "")
    description := some (r.snippet.getD "")
    image_url := some (r.thumbnail.getD "")
    rating := r.rating
    reviews_count := r.reviews
    source := some (r.source.getD "")
    url := some (r.link.getD "") }

/-- Oracle results become product dicts.  For convenience the oracle already
carries `Product`s of the shape `mapSerpResult` produces. -/
def serpProducts (results : List Product) : List Product := results

/-- `_search_products_with_serpapi` (services.py 246-294).  `Except` models
raising: the function raises when the key is unconfigured (line 249), on a
non-200/429 status (line 290), and re-raises transport failures (line 294);
a 429 yields an empty list (line 286). -/
def search_products_with_serpapi (env : Env) : Except Unit (List Product) :=
  if ¬ env.serpapiKey then .error ()
  else
    match env.serp with
    | .ok results => .ok (serpProducts results)
    | .rateLimited => .ok []
    | .httpError => .error ()
    | .netFail => .error ()

/-- `_search_with_keyword` (services.py 613-615). -/
def search_with_keyword (env : Env) : Except Unit (List Product) :=
  search_products_with_serpapi env

/-- `.replace("₹", "Rs ")` (services.py 633): the pattern is a single
character, so the replacement is a character-wise expansion. -/
def replaceRupee (s : String) : String :=
  ⟨s.toList.flatMap (fun c => if c = '₹' then "Rs ".toList else [c])⟩

/-- The textual search query built from the keyword and the answered filters
(services.py 620-651).  This code runs **before** the `try:` at line 656:
`price_filter.split("₹")[1]` at line 630 raises IndexError whenever the
stored price answer contains "Under" but no "₹" (answers are free text and
are never validated), and that exception escapes `_search_with_filters`
altogether, landing in the chat handler at 189-196. -/
def build_search_query (keyword : String)
    (filters : List (String × String)) : Except Unit String :=
  let search_query := keyword
  -- services.py 624-625
  let search_query :=
    match dictLookup filters "brand" with
    | some brand =>
      if sentinelBrands.contains brand then search_query
      else search_query ++ " " ++ brand
    | none => search_query
  -- services.py 627-633
  let priced : Except Unit String :=
    match dictLookup filters "price" with
    | some price_filter =>
      if strContains price_filter "Under" then
        match (pySplitOn price_filter "₹")[1]? with
        | some second =>
          .ok (search_query ++ " under " ++ removeCommas second)
        | none => .error ()
      else if strContains price_filter "-" then
        .ok (search_query ++ " " ++ replaceRupee price_filter)
      else .ok search_query
    | none => .ok search_query
  -- services.py 635-651
  match priced with
  | .error e => .error e
  | .ok search_query =>
    let addPart := fun (q : String) (key : String) (suffix : String) =>
      match dictLookup filters key with
      | some v => q ++ " " ++ v ++ suffix
      | none => q
    .ok (addPart (addPart (addPart (addPart (addPart (addPart search_query
      "storage" "") "ram" " RAM") "processor" "") "type" "") "features" "")
      "connectivity" "")

/-- `_search_with_filters` (services.py 617-713).  First the query text is
built (lines 620-651, outside the `try:`): its IndexError at line 630
escapes this function, modelled by `.error`.  The built query (and the
min/max price params of 671-681) only shape the request to the port, whose
outcome the oracle `env.serp` supplies.  Inside the `try` every failure path
— unconfigured key (657), rate limit (704), other status (707), exception
(711) — returns the filtered fallback. -/
def search_with_filters (env : Env) (keyword : String)
    (filters : List (String × String)) : Except Unit (List Product) :=
  match build_search_query keyword filters with
  | .error e => .error e
  | .ok _search_query =>
    if ¬ env.serpapiKey then
      .ok (get_filtered_fallback_products keyword filters)
    else
      match env.serp with
      | .ok results => .ok (serpProducts results)
      | .rateLimited => .ok (get_filtered_fallback_products keyword filters)
      | .httpError => .ok (get_filtered_fallback_products keyword filters)
      | .netFail => .ok (get_filtered_fallback_products keyword filters)

/-! ## Scoring (services.py 296-375) -/

/-- Indexed map, the translation of `for i, product in enumerate(...)`
loops. -/
def enumMap (f : Nat → Product → Product) : Nat → List Product → List Product
  | _, [] => []
  | i, p :: ps => f i p :: enumMap f (i + 1) ps

/-- The linear-decay fallback score `max(0.1, 1.0 - i * 0.1)`
(services.py 306 and 372). -/
def decayScore (i : Nat) : ℚ :=
  max (1 / 10) (1 - (i : ℚ) * (1 / 10))

/-- `_analyze_products_with_ai` (services.py 296-375).  Three regimes: no key
configured → linear-decay scores referencing the query (301-309); a
catastrophic failure before the per-candidate loop → linear-decay scores with
the generic explanation (367-375); otherwise one port call per candidate with
per-candidate degradation (320-363). -/
def analyze_products_with_ai (env : Env) (products : List Product)
    (original_query : String) : List Product :=
  if ¬ env.aiKey then
    enumMap (fun i p =>
        { p with relevance_score := some (decayScore i)
                 explanation := some ("Product matches your search for: "
                   ++ original_query) })
      0 products
  else if env.aiSessionFail then
    enumMap (fun i p =>
        { p with relevance_score := some (decayScore i)
                 explanation := some "Product matches your search criteria" })
      0 products
  else
    enumMap (fun i p =>
        match env.ai i with
        | .ok s e => { p with relevance_score := some s, explanation := some e }
        | .okGarbage =>
          -- `product.update(analysis)` with a JSON null score: the dict key
          -- exists bound to Python None.  The typed field records it as
          -- `none`; `batchPoisoned` tracks out-of-band that this batch now
          -- holds a score `sorted` cannot compare (see
          -- `rank_products_checked`).
          { p with relevance_score := none }
        | .badJson => { p with relevance_score := some (1 / 2)
                               explanation := some "Unable to analyze product relevance" }
        | .callFail => { p with relevance_score := some (1 / 2)
                                explanation := some "Analysis unavailable" })
      0 products

/-- Whether the per-candidate scoring pass injected a non-comparable
`relevance_score` into a batch of the given length: only the configured-port
loop (services.py 320-363) merges raw JSON into the product dicts. -/
def batchPoisoned (env : Env) (products : List Product) : Bool :=
  env.aiKey && !env.aiSessionFail &&
    (List.range products.length).any (fun i => decide (env.ai i = .okGarbage))

/-! ## Ranking (services.py 377-402) -/

/-- The sort key `x.get("relevance_score", 0)` (services.py 380). -/
def rankKey (p : Product) : ℚ :=
  p.relevance_score.getD 0

/-- `le a b` iff the stable sort may keep `a` before `b`: descending by
`rankKey`. -/
def rankLE (a b : Product) : Bool :=
  decide (rankKey b ≤ rankKey a)

/-- Insert into an already-emitted suffix, before the first element it may
precede. -/
def insertDesc (a : Product) : List Product → List Product
  | [] => [a]
  | b :: bs => if rankLE a b then a :: b :: bs else b :: insertDesc a bs

/-- Model of `sorted(products, key=lambda x: x.get("relevance_score", 0),
reverse=True)` (services.py 380): Python sorting is stable, and a stable sort
is determined up to extensional equality by its comparator, so a structurally
recursive stable insertion sort is a faithful executable model. -/
def pySorted : List Product → List Product
  | [] => []
  | p :: ps => insertDesc p (pySorted ps)

/-- The sorted (still raw) product list inside `_rank_products`. -/
def rank_sorted (products : List Product) : List Product :=
  pySorted products

/-- Formatting of one sorted product (services.py 385-399); `fresh i` stands
for the `uuid.uuid4()` drawn for the `i`-th item. -/
def formatProduct (fresh : Nat → Nat) (i : Nat) (p : Product) :
    FormattedProduct :=
  { id := fresh i
    title := p.title.getD "Unknown Product"
    description := p.description.getD ""
    price := p.price.getD "Price not available"
    currency := "₹"
    image_url := p.image_url.getD "/static/placeholder-product.svg"
    rating := p.rating
    reviews_count := p.reviews_count
    availability := "In Stock"
    source := p.source.getD "Unknown"
    url := p.url.getD "#"
    relevance_score := p.relevance_score.getD (1 / 2)
    explanation := p.explanation.getD
      "Recommended based on your search criteria" }

/-- Indexed formatting pass (the `for i, product in enumerate(sorted_products)`
loop). -/
def formatAll (fresh : Nat → Nat) : Nat → List Product → List FormattedProduct
  | _, [] => []
  | i, p :: ps => formatProduct fresh i p :: formatAll fresh (i + 1) ps

/-- `_rank_products` (services.py 377-402).  Note: this function itself does
not truncate; the `[:10]` slice is applied by its caller
`process_search_query` (lines 56 and 70). -/
def rank_products (fresh : Nat → Nat) (products : List Product) :
    List FormattedProduct :=
  formatAll fresh 0 (rank_sorted products)

/-- `_rank_products` as invoked on a possibly poisoned batch: with at least
two candidates, `sorted` at services.py 380 compares every element's key at
least once, so one non-comparable score makes it raise TypeError (modelled
by `.error`).  A single-candidate batch is never compared and sorts fine (a
poisoned singleton would then surface its Python `None` score where this
typed model reads the 0.5 display default — a corner no claim touches, and
one the pydantic schema boundary in models.py rejects anyway). -/
def rank_products_checked (fresh : Nat → Nat) (products : List Product)
    (poisoned : Bool) : Except Unit (List FormattedProduct) :=
  if poisoned && decide (2 ≤ products.length) then .error ()
  else .ok (rank_products fresh products)

/-! ## One-shot search (services.py 33-79) -/

/-- The outer exception handler of the one-shot search (services.py 61-79):
it retries the whole fallback pipeline, and if that pipeline raises in turn
(the scoring pass injected a non-comparable score into the two-or-more
fallback candidates again), the inner `except` at 74-79 answers with **zero
products**.  The `str(e)` runtime exception text appended to that
explanation is not modelled. -/
def oneshot_recover (env : Env) (fresh : Nat → Nat) (query : String) :
    SearchResult :=
  let fallback_products := get_fallback_products query
  let analyzed_products := analyze_products_with_ai env fallback_products query
  match rank_products_checked fresh analyzed_products
      (batchPoisoned env fallback_products) with
  | .ok ranked_products =>
    { products := ranked_products.take 10
      explanation := "Showing sample results for: " ++ query
        ++ " (API temporarily unavailable)" }
  | .error _ =>
    { products := []
      explanation := "Sorry, I encountered an error while searching: " }

/-- `process_search_query` (services.py 33-79).  The Phi-3 parse step
(line 39, services.py 198-244) never raises — every failure degrades to
`{"product_type": query}` — and its output only shapes the search request,
which the oracle absorbs, so it is not modelled separately.  The `try` body
can raise in two places: the retrieval call (modelled by
`search_products_with_serpapi`) and the sort inside `_rank_products` when
the scoring pass injected a non-comparable score; both land in the handler
at line 61 (`oneshot_recover`). -/
def process_search_query (env : Env) (fresh : Nat → Nat) (query : String) :
    SearchResult :=
  match search_products_with_serpapi env with
  | .ok results =>
    let search_results :=
      if results.isEmpty then get_fallback_products query else results
    let analyzed_products := analyze_products_with_ai env search_results query
    match rank_products_checked fresh analyzed_products
        (batchPoisoned env search_results) with
    | .ok ranked_products =>
      { products := ranked_products.take 10
        explanation := "Found " ++ toString ranked_products.length
          ++ " products matching your criteria: " ++ query }
    | .error _ => oneshot_recover env fresh query
  | .error _ => oneshot_recover env fresh query

/-! ## The conversational session machine (services.py 81-196) -/

/-- The option prompt for one filter (services.py 112-113 and 151-152). -/
def filterPrompt (f : Filter) : String :=
  "**" ++ f.name ++ "**: Please choose from these options:\n"
    ++ pyJoin "\n" (f.options.map (fun opt => "• " ++ opt))

/-- The reply of the outer exception handler (services.py 191-196).  Note the
handler only builds this reply; it does not touch `self.user_sessions`. -/
def chatError : ChatResponse :=
  { message := "I\x27m sorry, I encountered an error. Let\x27s start fresh - what product are you looking for?"
    has_products := false
    products := [] }

/-- The clarifying prompt for a message with no recognized keyword
(services.py 130-135). -/
def clarifyResponse : ChatResponse :=
  { message := "I\x27d like to help you find products! Please tell me what you\x27re looking for (e.g., smartphone, speakers, earphones, laptop, etc.)"
    has_products := false
    products := [] }

/-- The fall-through conversational reply (services.py 180-187). -/
def convResponse (message : String) : ChatResponse :=
  { message := generate_conversational_response message
    has_products := false
    products := [] }

/-- The stage dispatch of `process_chat_message` (services.py 98-187): the
`if/elif` chain over the current stage, after the session has been looked up
(and lazily created).  Python mutates the session dict in place; the
corresponding map updates happen here exactly where the mutations become
observable. -/
def chat_dispatch (env : Env) (sessions1 : Sessions)
    (session_id message : String) (session : Session) :
    Sessions × ChatResponse :=
  match session.stage with
    | .initial =>
      -- services.py 99-135
      match extract_product_keyword message with
      | some keyword =>
        let filters := get_available_filters keyword
        let session1 := { session with
          product_keyword := some keyword
          stage := .gettingFilters
          available_filters := filters }
        let sessions2 := dictUpsert sessions1 session_id session1
        match filters with
        | current_filter :: _ =>
          (sessions2,
           { message := "Great! I found filters for " ++ keyword
               ++ ". Let\x27s refine your search step by step.\n\n"
               ++ filterPrompt current_filter
             has_products := false
             products := []
             filter_options := current_filter.options
             filter_name := some current_filter.name })
        | [] =>
          -- services.py 120-128: no filters, search immediately; a raise in
          -- `_search_with_keyword` lands in the handler at 189-196 with the
          -- session mutations already visible.
          match search_with_keyword env with
          | .ok results =>
            (sessions2,
             { message := "Here are the search results for " ++ keyword ++ ":"
               has_products := true
               products := results })
          | .error _ => (sessions2, chatError)
      | none => (sessions1, clarifyResponse)
    | .gettingFilters =>
      -- services.py 138-178
      let filter_index := session.current_filter_index
      match session.available_filters[filter_index]? with
      | some current_filter =>
        let answered :=
          dictUpsert session.current_filters current_filter.param
            (pyStrip message)
        let session1 := { session with
          current_filters := answered
          current_filter_index := filter_index + 1 }
        match session1.available_filters[filter_index + 1]? with
        | some next_filter =>
          (dictUpsert sessions1 session_id session1,
           { message := filterPrompt next_filter
             has_products := false
             products := []
             filter_options := next_filter.options
             filter_name := some next_filter.name })
        | none =>
          -- services.py 159-178: all filters collected.  Line 161 sets the
          -- stored dict's stage to "searching" in place, then line 162
          -- searches.  If the search returns, the map entry is replaced by a
          -- fresh session (165-171); if its query construction raises
          -- (line 630), the handler at 189-196 answers with the apology and
          -- the mutated session — answers recorded, cursor advanced, stage
          -- "searching" — stays stored.
          match search_with_filters env (pyStr session.product_keyword)
              answered with
          | .ok results =>
            (dictUpsert sessions1 session_id freshSession,
             { message := "Here are your filtered results for "
                 ++ pyStr session.product_keyword ++ ":"
               has_products := true
               products := results })
          | .error _ =>
            (dictUpsert sessions1 session_id
              { session1 with stage := .searching }, chatError)
      | none => (sessions1, convResponse message)
    | .searching => (sessions1, convResponse message)

/-- `process_chat_message` (services.py 81-196) as one step of the session
machine: the stored session map and the incoming message go in, the updated
map and the response come out.  `env.fault = true` replays an unexpected
exception thrown while the message is dispatched, landing in the handler at
lines 189-196, which answers with `chatError` and leaves the session map as
it stands. -/
def process_chat_message (env : Env) (sessions : Sessions)
    (session_id message : String) : Sessions × ChatResponse :=
  -- services.py 86-94: initialize the session if new
  let sessions1 : Sessions :=
    if (dictLookup sessions session_id).isSome then sessions
    else dictUpsert sessions session_id freshSession
  let session := (dictLookup sessions1 session_id).getD freshSession
  if env.fault then (sessions1, chatError)
  else chat_dispatch env sessions1 session_id message session

/-! ## Session invariant, reachability, and concrete inputs -/

/-- The state invariant of one stored session: the answered-filter count
matches the cursor, the cursor stays within the filter sequence, the answered
keys are exactly the parameter keys of the already-asked filters in order,
the filter sequence never repeats a parameter key, a stored INITIAL session
is pristine, and a session stored in SEARCHING (left behind when the
filtered-search query construction raised) has every filter answered. -/
def goodSession (s : Session) : Prop :=
  s.current_filters.length = s.current_filter_index ∧
  s.current_filter_index ≤ s.available_filters.length ∧
  s.current_filters.map Prod.fst =
    (s.available_filters.map Filter.param).take s.current_filter_index ∧
  (s.available_filters.map Filter.param).Nodup ∧
  (s.stage = .initial → s = freshSession) ∧
  (s.stage = .searching →
    s.current_filter_index = s.available_filters.length)

/-- All stored sessions satisfy the invariant. -/
def allGood (ss : Sessions) : Prop :=
  ∀ k s, dictLookup ss k = some s → goodSession s

/-- The maps reachable by any sequence of chat messages from the empty
process-wide store. -/
inductive ReachableSessions : Sessions → Prop where
  | start : ReachableSessions []
  | step (env : Env) (ss : Sessions) (sid msg : String) :
      ReachableSessions ss →
      ReachableSessions (process_chat_message env ss sid msg).1

/-- A concrete oracle: no port configured, no exception; the search oracle
fields are irrelevant on the unconfigured paths. -/
def envUnconfigured : Env :=
  { serpapiKey := false
    aiKey := false
    serp := .ok []
    ai := fun _ => .callFail
    aiSessionFail := false
    fault := false }

/-- A concrete oracle replaying an unhandled exception during the turn. -/
def envFaulty : Env :=
  { envUnconfigured with fault := true }

/-- A concrete oracle: search port configured and answering HTTP 200 with
zero shopping results. -/
def envConfiguredEmpty : Env :=
  { envUnconfigured with serpapiKey := true }

/-- A laptop dialogue standing at its last filter (brand, price and
processor already answered; RAM pending). -/
def laptopDialogueLast : Session :=
  { stage := .gettingFilters
    product_keyword := some "laptop"
    current_filters :=
      [("brand", "HP"), ("price", "Under ₹30,000"),
       ("processor", "Intel Core i5")]
    available_filters := laptopFilters
    current_filter_index := 3 }

/-- A speaker dialogue standing at its last filter. -/
def speakerDialogueLast : Session :=
  { stage := .gettingFilters
    product_keyword := some "speaker"
    current_filters := [("brand", "JBL"), ("price", "Under ₹2,000")]
    available_filters := speakerFilters
    current_filter_index := 2 }

/-- A dialogue with one answered filter, mid-collection. -/
def midDialogue : Session :=
  { stage := .gettingFilters
    product_keyword := some "laptop"
    current_filters := [("brand", "HP")]
    available_filters := laptopFilters
    current_filter_index := 1 }

/-- The session left stored after a filtered-search crash: "tablet" opened
the default catalog, the price answer "Under 500" (no rupee sign) and a
brand were recorded, and the query construction raised at services.py 630,
leaving the stage at "searching" with everything answered. -/
def crashedDialogue : Session :=
  { stage := .searching
    product_keyword := some "tablet"
    current_filters := [("price", "Under 500"), ("brand", "Nike")]
    available_filters := defaultFilters
    current_filter_index := 2 }

/-- A candidate already carrying a score. -/
def scoredSample : Product :=
  { relevance_score := some 1 }

/-- Eleven scored candidates, more than one page of results. -/
def elevenProducts : List Product :=
  List.replicate 11 scoredSample

/-- Three bare candidates for the fallback-scoring scenario. -/
def threeProducts : List Product :=
  [{}, {}, {}]

/-! ## Dictionary lemmas -/

theorem dictLookup_nil {α : Type} (k : String) :
    dictLookup ([] : List (String × α)) k = none := rfl

theorem dictLookup_cons_self {α : Type} (p : String × α)
    (ps : List (String × α)) (k : String) (hk : p.1 = k) :
    dictLookup (p :: ps) k = some p.2 := by
  simp [dictLookup, List.find?_cons_of_pos, hk]

theorem dictLookup_cons_ne {α : Type} (p : String × α)
    (ps : List (String × α)) (k : String) (hk : p.1 ≠ k) :
    dictLookup (p :: ps) k = dictLookup ps k := by
  simp only [dictLookup]
  rw [List.find?_cons_of_neg]
  simpa using hk

theorem dictUpsert_cons_ne {α : Type} (p : String × α)
    (ps : List (String × α)) (k : String) (v : α) (hk : p.1 ≠ k) :
    dictUpsert (p :: ps) k v = p :: dictUpsert ps k v := by
  by_cases ha : ps.any (fun q => q.1 = k)
  · have h1 : ((p :: ps).any fun q => q.1 = k) = true := by
      simp [List.any_cons, ha]
    simp [dictUpsert, h1, ha, if_neg hk]
  · have h1 : ((p :: ps).any fun q => q.1 = k) = false := by
      simp [List.any_cons, ha, hk]
    simp [dictUpsert, h1, ha]

theorem dictUpsert_cons_self {α : Type} (p : String × α)
    (ps : List (String × α)) (k : String) (v : α) (hk : p.1 = k) :
    dictUpsert (p :: ps) k v =
      (k, v) :: ps.map (fun q => if q.1 = k then (k, v) else q) := by
  have h1 : ((p :: ps).any fun q => q.1 = k) = true := by
    simp [List.any_cons, hk]
  simp [dictUpsert, h1, hk]

theorem dictLookup_map_rewriteKey {α : Type} (ps : List (String × α))
    (k k' : String) (v : α) (h : k' ≠ k) :
    dictLookup (ps.map (fun q => if q.1 = k then (k, v) else q)) k' =
      dictLookup ps k' := by
  induction ps with
  | nil => rfl
  | cons q qs ih =>
    by_cases hq : q.1 = k
    · rw [List.map_cons, if_pos hq]
      rw [dictLookup_cons_ne _ _ _ (show ((k, v) : String × α).1 ≠ k' from Ne.symm h)]
      rw [dictLookup_cons_ne _ _ _ (show q.1 ≠ k' by rw [hq]; exact Ne.symm h)]
      exact ih
    · rw [List.map_cons, if_neg hq]
      by_cases hq' : q.1 = k'
      · rw [dictLookup_cons_self _ _ _ hq', dictLookup_cons_self _ _ _ hq']
      · rw [dictLookup_cons_ne _ _ _ hq', dictLookup_cons_ne _ _ _ hq']
        exact ih

theorem dictLookup_dictUpsert_self {α : Type} (d : List (String × α))
    (k : String) (v : α) : dictLookup (dictUpsert d k v) k = some v := by
  induction d with
  | nil => simp [dictUpsert, dictLookup]
  | cons p ps ih =>
    by_cases hk : p.1 = k
    · rw [dictUpsert_cons_self p ps k v hk]
      exact dictLookup_cons_self _ _ _ rfl
    · rw [dictUpsert_cons_ne p ps k v hk, dictLookup_cons_ne _ _ _ hk]
      exact ih

theorem dictLookup_dictUpsert_ne {α : Type} (d : List (String × α))
    (k k' : String) (v : α) (h : k' ≠ k) :
    dictLookup (dictUpsert d k v) k' = dictLookup d k' := by
  induction d with
  | nil =>
    simp only [dictUpsert, List.any_nil, Bool.false_eq_true, if_false,
      List.nil_append]
    rw [dictLookup_cons_ne _ _ _ (show ((k, v) : String × α).1 ≠ k' from Ne.symm h)]
  | cons p ps ih =>
    by_cases hk : p.1 = k
    · rw [dictUpsert_cons_self p ps k v hk]
      rw [dictLookup_cons_ne _ _ _ (show ((k, v) : String × α).1 ≠ k' from Ne.symm h)]
      rw [dictLookup_map_rewriteKey ps k k' v h]
      by_cases hp : p.1 = k'
      · exact absurd (hp.symm.trans hk) h
      · rw [dictLookup_cons_ne _ _ _ hp]
    · rw [dictUpsert_cons_ne p ps k v hk]
      by_cases hp : p.1 = k'
      · rw [dictLookup_cons_self _ _ _ hp, dictLookup_cons_self _ _ _ hp]
      · rw [dictLookup_cons_ne _ _ _ hp, dictLookup_cons_ne _ _ _ hp]
        exact ih

/-- Any entry of an upserted dictionary is the new binding or an old one. -/
theorem dictLookup_dictUpsert_cases {α : Type} (d : List (String × α))
    (k k' : String) (v v' : α)
    (h : dictLookup (dictUpsert d k v) k' = some v') :
    (k' = k ∧ v' = v) ∨ dictLookup d k' = some v' := by
  by_cases hk : k' = k
  · subst hk
    rw [dictLookup_dictUpsert_self] at h
    exact Or.inl ⟨rfl, (Option.some_inj.mp h).symm⟩
  · rw [dictLookup_dictUpsert_ne d k k' v hk] at h
    exact Or.inr h

/-- Upserting an absent key appends the binding. -/
theorem dictUpsert_absent {α : Type} (d : List (String × α)) (k : String)
    (v : α) (h : ∀ p ∈ d, p.1 ≠ k) : dictUpsert d k v = d ++ [(k, v)] := by
  unfold dictUpsert
  rw [if_neg]
  simp only [List.any_eq_true, decide_eq_true_eq, not_exists, not_and]
  intro p hp
  exact h p hp

/-! ## Catalog and fallback facts -/

/-- Every branch of the filter catalog returns one of the five concrete
filter lists. -/
theorem get_available_filters_cases (keyword : String) :
    get_available_filters keyword = smartphoneFilters ∨
    get_available_filters keyword = laptopFilters ∨
    get_available_filters keyword = speakerFilters ∨
    get_available_filters keyword = earphoneFilters ∨
    get_available_filters keyword = defaultFilters := by
  unfold get_available_filters
  split
  · exact Or.inl rfl
  · split
    · exact Or.inr (Or.inl rfl)
    · split
      · exact Or.inr (Or.inr (Or.inl rfl))
      · split
        · exact Or.inr (Or.inr (Or.inr (Or.inl rfl)))
        · exact Or.inr (Or.inr (Or.inr (Or.inr rfl)))

/-- Every filter list of the catalog has at least two filters (the default
already has price and brand). -/
theorem get_available_filters_length (keyword : String) :
    2 ≤ (get_available_filters keyword).length := by
  rcases get_available_filters_cases keyword with h | h | h | h | h <;>
    rw [h] <;> decide

/-- Every filter list of the catalog uses pairwise distinct parameter keys. -/
theorem get_available_filters_params_nodup (keyword : String) :
    ((get_available_filters keyword).map Filter.param).Nodup := by
  rcases get_available_filters_cases keyword with h | h | h | h | h <;>
    rw [h] <;> decide

/-- The fallback catalog is never empty (services.py 421-478: two phones, one
laptop, or the generic sample). -/
theorem get_fallback_products_ne_nil (query : String) :
    get_fallback_products query ≠ [] := by
  unfold get_fallback_products
  dsimp only
  split
  · decide
  · split
    · decide
    · simp

/-- The filtered fallback is never empty: when the filters reject every
catalog entry the unfiltered catalog is returned (services.py 756). -/
theorem get_filtered_fallback_products_ne_nil (keyword : String)
    (filters : List (String × String)) :
    get_filtered_fallback_products keyword filters ≠ [] := by
  unfold get_filtered_fallback_products
  dsimp only
  split
  · exact get_fallback_products_ne_nil keyword
  · rename_i h
    intro hnil
    rw [hnil] at h
    exact h rfl

/-! ## Lemmas on the stable sort model -/

theorem length_insertDesc (a : Product) (l : List Product) :
    (insertDesc a l).length = l.length + 1 := by
  induction l with
  | nil => rfl
  | cons b bs ih =>
    by_cases h : rankLE a b
    · simp [insertDesc, h]
    · simp [insertDesc, h, ih]

theorem mem_insertDesc {a x : Product} {l : List Product} :
    x ∈ insertDesc a l ↔ x = a ∨ x ∈ l := by
  induction l with
  | nil => simp [insertDesc]
  | cons b bs ih =>
    by_cases h : rankLE a b
    · simp [insertDesc, h]
    · simp [insertDesc, h, ih]
      tauto

theorem length_pySorted (l : List Product) :
    (pySorted l).length = l.length := by
  induction l with
  | nil => rfl
  | cons p ps ih => simp [pySorted, length_insertDesc, ih]

theorem mem_pySorted {x : Product} {l : List Product} :
    x ∈ pySorted l ↔ x ∈ l := by
  induction l with
  | nil => simp [pySorted]
  | cons p ps ih =>
    simp [pySorted, mem_insertDesc, ih]

/-- Inserting below keeps the descending order. -/
theorem pairwise_insertDesc (a : Product) (l : List Product)
    (h : l.Pairwise (fun x y => rankKey y ≤ rankKey x)) :
    (insertDesc a l).Pairwise (fun x y => rankKey y ≤ rankKey x) := by
  induction l with
  | nil => simp [insertDesc]
  | cons b bs ih =>
    by_cases hab : rankLE a b
    · rw [insertDesc, if_pos hab]
      refine List.Pairwise.cons ?_ h
      intro y hy
      have hba : rankKey b ≤ rankKey a := by
        simpa [rankLE] using hab
      rcases List.mem_cons.mp hy with hyb | hybs
      · exact hyb ▸ hba
      · exact le_trans (List.rel_of_pairwise_cons h hybs) hba
    · rw [insertDesc, if_neg hab]
      have hbs := List.Pairwise.of_cons h
      refine List.Pairwise.cons ?_ (ih hbs)
      intro y hy
      rcases mem_insertDesc.mp hy with hya | hybs
      · have hlt : ¬ rankKey b ≤ rankKey a := by
          simpa [rankLE] using hab
        rw [hya]
        exact le_of_lt (lt_of_not_le hlt)
      · exact List.rel_of_pairwise_cons h hybs

theorem pairwise_pySorted (l : List Product) :
    (pySorted l).Pairwise (fun x y => rankKey y ≤ rankKey x) := by
  induction l with
  | nil => simp [pySorted]
  | cons p ps ih => exact pairwise_insertDesc p _ ih

/-- Stability of the insertion, phrased through filtering on one key value:
the inserted element lands in front of exactly the equal-or-smaller keys, so
the sub-list at any fixed key q gains `a` at the front iff `rankKey a = q`. -/
theorem filter_insertDesc_eq (a : Product) (l : List Product) (q : ℚ)
    (ha : rankKey a = q) :
    (insertDesc a l).filter (fun p => rankKey p = q) =
      a :: l.filter (fun p => rankKey p = q) := by
  induction l with
  | nil => simp [insertDesc, List.filter, ha]
  | cons b bs ih =>
    by_cases hab : rankLE a b
    · rw [insertDesc, if_pos hab]
      simp [List.filter_cons, ha]
    · rw [insertDesc, if_neg hab]
      have hbq : ¬ rankKey b = q := by
        intro hb
        apply hab
        simp only [rankLE, decide_eq_true_eq]
        rw [hb, ha]
      have hpb : ¬ (decide (rankKey b = q) = true) := by simp [hbq]
      rw [List.filter_cons, List.filter_cons, if_neg hpb, if_neg hpb, ih]

theorem filter_insertDesc_ne (a : Product) (l : List Product) (q : ℚ)
    (ha : rankKey a ≠ q) :
    (insertDesc a l).filter (fun p => rankKey p = q) =
      l.filter (fun p => rankKey p = q) := by
  induction l with
  | nil => simp [insertDesc, List.filter, ha]
  | cons b bs ih =>
    by_cases hab : rankLE a b
    · rw [insertDesc, if_pos hab]
      simp [List.filter_cons, ha]
    · rw [insertDesc, if_neg hab]
      rw [List.filter_cons, List.filter_cons, ih]

/-- Stability of the whole sort: for every key value the sorted list lists
the elements of that key in their original order. -/
theorem filter_pySorted (l : List Product) (q : ℚ) :
    (pySorted l).filter (fun p => rankKey p = q) =
      l.filter (fun p => rankKey p = q) := by
  induction l with
  | nil => rfl
  | cons p ps ih =>
    by_cases hpq : rankKey p = q
    · rw [pySorted, filter_insertDesc_eq p _ q hpq, ih, List.filter_cons]
      simp [hpq]
    · rw [pySorted, filter_insertDesc_ne p _ q hpq, ih, List.filter_cons]
      simp [hpq]

/-! ## Lemmas on the indexed passes -/

theorem length_enumMap (f : Nat → Product → Product) (i : Nat)
    (l : List Product) : (enumMap f i l).length = l.length := by
  induction l generalizing i with
  | nil => rfl
  | cons p ps ih => simp [enumMap, ih]

theorem getElem_enumMap (f : Nat → Product → Product) (i : Nat)
    (l : List Product) (j : Nat) (hj : j < l.length)
    (hj' : j < (enumMap f i l).length) :
    (enumMap f i l)[j] = f (i + j) l[j] := by
  induction l generalizing i j with
  | nil => exact absurd hj (by simp)
  | cons p ps ih =>
    cases j with
    | zero => simp [enumMap]
    | succ j =>
      have hj2 : j < ps.length := by simpa using hj
      have hj2' : j < (enumMap f (i + 1) ps).length := by
        rw [length_enumMap]; exact hj2
      simp only [enumMap, List.getElem_cons_succ]
      rw [ih (i + 1) j hj2 hj2']
      congr 1
      omega

theorem length_formatAll (fresh : Nat → Nat) (i : Nat) (l : List Product) :
    (formatAll fresh i l).length = l.length := by
  induction l generalizing i with
  | nil => rfl
  | cons p ps ih => simp [formatAll, ih]

theorem getElem_formatAll (fresh : Nat → Nat) (i : Nat) (l : List Product)
    (j : Nat) (hj : j < l.length) (hj' : j < (formatAll fresh i l).length) :
    (formatAll fresh i l)[j] = formatProduct fresh (i + j) l[j] := by
  induction l generalizing i j with
  | nil => exact absurd hj (by simp)
  | cons p ps ih =>
    cases j with
    | zero => simp [formatAll]
    | succ j =>
      have hj2 : j < ps.length := by simpa using hj
      have hj2' : j < (formatAll fresh (i + 1) ps).length := by
        rw [length_formatAll]; exact hj2
      simp only [formatAll, List.getElem_cons_succ]
      rw [ih (i + 1) j hj2 hj2']
      congr 1
      omega

theorem length_rank_products (fresh : Nat → Nat) (products : List Product) :
    (rank_products fresh products).length = products.length := by
  rw [rank_products, length_formatAll, rank_sorted, length_pySorted]

theorem length_analyze (env : Env) (products : List Product) (q : String) :
    (analyze_products_with_ai env products q).length = products.length := by
  unfold analyze_products_with_ai
  split
  · rw [length_enumMap]
  · split
    · rw [length_enumMap]
    · rw [length_enumMap]

/-! ## Session invariants and reachability -/

theorem goodSession_fresh : goodSession freshSession :=
  ⟨rfl, by simp [freshSession], by simp [freshSession],
   by simp [freshSession], fun _ => rfl,
   fun h => absurd h (by decide)⟩

theorem allGood_nil : allGood [] := by
  intro k s h
  simp [dictLookup] at h

/-- In a duplicate-free list, the `i`-th element does not occur among the
first `i`. -/
theorem getElem_not_mem_take_of_nodup {β : Type} {l : List β} (h : l.Nodup)
    {i : Nat} (hi : i < l.length) : l[i] ∉ l.take i := by
  intro hmem
  obtain ⟨j, hj, hje⟩ := List.getElem_of_mem hmem
  have hji : j < i := by
    have := hj
    rw [List.length_take] at this
    omega
  have hjl : j < l.length := lt_trans hji hi
  have heq : l[j] = l[i] := by
    rw [← hje]
    simp
  have := (List.Nodup.getElem_inj_iff h).mp heq
  omega

theorem allGood_upsert (ss : Sessions) (sid : String) (x : Session)
    (h : allGood ss) (hx : goodSession x) : allGood (dictUpsert ss sid x) := by
  intro k s hks
  rcases dictLookup_dictUpsert_cases ss sid k x s hks with ⟨_, hv⟩ | hold
  · rw [hv]; exact hx
  · exact h k s hold

/-- Entering filter collection from a pristine INITIAL session yields a good
session (services.py 100-107). -/
theorem goodSession_enterFilters (s : Session) (hs : goodSession s)
    (hstage : s.stage = .initial) (kw : String) :
    goodSession { s with
      product_keyword := some kw
      stage := .gettingFilters
      available_filters := get_available_filters kw } := by
  have hfresh := hs.2.2.2.2.1 hstage
  rw [hfresh]
  refine ⟨rfl, Nat.zero_le _, by simp [freshSession],
    by simpa using get_available_filters_params_nodup kw, ?_, ?_⟩
  · intro hcontra
    exact absurd hcontra (by simp [freshSession])
  · intro hcontra
    simp at hcontra

/-- Recording one more filter answer preserves the invariant
(services.py 141-145). -/
theorem goodSession_answer (s : Session) (hs : goodSession s)
    (hstage : s.stage = .gettingFilters) (f : Filter) (ans : String)
    (hf : s.available_filters[s.current_filter_index]? = some f) :
    goodSession { s with
      current_filters := dictUpsert s.current_filters f.param ans
      current_filter_index := s.current_filter_index + 1 } := by
  obtain ⟨hlen, hle, hkeys, hnodup, hinit, hstages⟩ := hs
  obtain ⟨hidx, hfi⟩ := List.getElem?_eq_some_iff.mp hf
  have hidx' : s.current_filter_index <
      (s.available_filters.map Filter.param).length := by
    simpa using hidx
  have hparam : (s.available_filters.map Filter.param)[s.current_filter_index] =
      f.param := by
    rw [List.getElem_map]
    rw [hfi]
  -- the new key is not among the already-answered ones
  have habsent : ∀ p ∈ s.current_filters, p.1 ≠ f.param := by
    intro p hp hpk
    have hmem : f.param ∈ s.current_filters.map Prod.fst :=
      List.mem_map.mpr ⟨p, hp, hpk⟩
    rw [hkeys] at hmem
    have := getElem_not_mem_take_of_nodup hnodup hidx'
    rw [hparam] at this
    exact this hmem
  have hupd : dictUpsert s.current_filters f.param ans =
      s.current_filters ++ [(f.param, ans)] :=
    dictUpsert_absent _ _ _ habsent
  refine ⟨?_, ?_, ?_, hnodup, ?_,
    fun h => absurd (hstage.symm.trans h) (by decide)⟩
  · simp [hupd, hlen]
  · exact hidx
  · show (dictUpsert s.current_filters f.param ans).map Prod.fst =
      (s.available_filters.map Filter.param).take (s.current_filter_index + 1)
    rw [hupd, List.take_succ, List.map_append, hkeys]
    rw [List.getElem?_eq_getElem hidx']
    rw [hparam]
    rfl
  · intro hcontra
    rw [show ({ s with
        current_filters := dictUpsert s.current_filters f.param ans
        current_filter_index := s.current_filter_index + 1 } : Session).stage
      = s.stage from rfl] at hcontra
    rw [hstage] at hcontra
    exact absurd hcontra (by simp)

/-- The session left stored when the filtered-search query construction
raises after the last answer was recorded (services.py 144-145, 161, 630)
still satisfies the invariant: everything is answered and the cursor sits at
the end of the sequence. -/
theorem goodSession_crashed (s : Session) (hs : goodSession s)
    (hstage : s.stage = .gettingFilters) (f : Filter) (ans : String)
    (hf : s.available_filters[s.current_filter_index]? = some f)
    (hnext : s.available_filters[s.current_filter_index + 1]? = none) :
    goodSession { s with
      current_filters := dictUpsert s.current_filters f.param ans
      current_filter_index := s.current_filter_index + 1
      stage := .searching } := by
  obtain ⟨h1, h2, h3, h4, _, _⟩ := goodSession_answer s hs hstage f ans hf
  have hidx := (List.getElem?_eq_some_iff.mp hf).1
  have hlen : s.available_filters.length = s.current_filter_index + 1 := by
    have := List.getElem?_eq_none_iff.mp hnext
    omega
  refine ⟨h1, h2, h3, h4, ?_, fun _ => hlen.symm⟩
  intro hcontra
  simp at hcontra

/-- The stage dispatch preserves the invariant on the stored map. -/
theorem allGood_dispatch (env : Env) (ss1 : Sessions) (sid msg : String)
    (session : Session) (h1 : allGood ss1) (hs : goodSession session) :
    allGood (chat_dispatch env ss1 sid msg session).1 := by
  unfold chat_dispatch
  cases hstage : session.stage with
  | initial =>
    cases hkw : extract_product_keyword msg with
    | some keyword =>
      dsimp only
      have hgood := goodSession_enterFilters session hs hstage keyword
      cases hfs : get_available_filters keyword with
      | nil =>
        rw [hfs] at hgood
        cases hsr : search_with_keyword env with
        | ok results => exact allGood_upsert _ _ _ h1 hgood
        | error e => exact allGood_upsert _ _ _ h1 hgood
      | cons f fs =>
        rw [hfs] at hgood
        exact allGood_upsert _ _ _ h1 hgood
    | none => exact h1
  | gettingFilters =>
    dsimp only
    cases hf : session.available_filters[session.current_filter_index]? with
    | some current_filter =>
      dsimp only
      have hgood := goodSession_answer session hs hstage current_filter
        (pyStrip msg) hf
      rw [hstage] at hgood
      cases hnext :
          session.available_filters[session.current_filter_index + 1]? with
      | some next_filter => exact allGood_upsert _ _ _ h1 hgood
      | none =>
        cases hres : search_with_filters env (pyStr session.product_keyword)
            (dictUpsert session.current_filters current_filter.param
              (pyStrip msg)) with
        | ok results => exact allGood_upsert _ _ _ h1 goodSession_fresh
        | error e =>
          exact allGood_upsert _ _ _ h1
            (goodSession_crashed session hs hstage current_filter
              (pyStrip msg) hf hnext)
    | none => exact h1
  | searching => exact h1

/-- One whole message step preserves the invariant. -/
theorem allGood_step (env : Env) (ss : Sessions) (sid msg : String)
    (h : allGood ss) : allGood (process_chat_message env ss sid msg).1 := by
  unfold process_chat_message
  dsimp only
  have h1 : allGood (if (dictLookup ss sid).isSome then ss
      else dictUpsert ss sid freshSession) := by
    split
    · exact h
    · exact allGood_upsert ss sid freshSession h goodSession_fresh
  have hsession : goodSession
      ((dictLookup (if (dictLookup ss sid).isSome then ss
        else dictUpsert ss sid freshSession) sid).getD freshSession) := by
    cases hl : dictLookup (if (dictLookup ss sid).isSome then ss
        else dictUpsert ss sid freshSession) sid with
    | none => exact goodSession_fresh
    | some s => exact h1 sid s hl
  split
  · exact h1
  · exact allGood_dispatch env _ sid msg _ h1 hsession

theorem allGood_reachable (ss : Sessions) (h : ReachableSessions ss) :
    allGood ss := by
  induction h with
  | start => exact allGood_nil
  | step env ss sid msg _ ih => exact allGood_step env ss sid msg ih

/-! ## Step characterizations -/

/-- With the sender's session stored and no exception, a message step is the
stage dispatch on that session, and the lazily-initializing prologue leaves
the map alone. -/
theorem process_chat_message_of_lookup (env : Env) (ss : Sessions)
    (sid msg : String) (s : Session) (hl : dictLookup ss sid = some s)
    (hfault : env.fault = false) :
    process_chat_message env ss sid msg = chat_dispatch env ss sid msg s := by
  unfold process_chat_message
  simp only [hl, Option.isSome_some, if_true, Option.getD_some, hfault,
    Bool.false_eq_true, if_false]

/-- The exception handler (services.py 189-196): the canned apology comes
back and the session map is exactly what it was after the lazy
initialization — nothing is cleared. -/
theorem process_chat_message_fault (env : Env) (ss : Sessions)
    (sid msg : String) (hfault : env.fault = true) :
    process_chat_message env ss sid msg =
      (if (dictLookup ss sid).isSome then ss
       else dictUpsert ss sid freshSession, chatError) := by
  unfold process_chat_message
  simp only [hfault, if_true]

/-- Dispatch, INITIAL, no keyword recognized: the clarifying prompt, no map
change (services.py 129-135). -/
theorem chat_dispatch_noKeyword (env : Env) (ss1 : Sessions)
    (sid msg : String) (s : Session) (hstage : s.stage = .initial)
    (hkw : extract_product_keyword msg = none) :
    chat_dispatch env ss1 sid msg s = (ss1, clarifyResponse) := by
  unfold chat_dispatch
  rw [hstage]
  dsimp only
  rw [hkw]

/-- Dispatch, INITIAL, keyword recognized with a non-empty filter list: the
session enters COLLECTING_FILTERS and the first filter is prompted
(services.py 100-119). -/
theorem chat_dispatch_keyword (env : Env) (ss1 : Sessions) (sid msg : String)
    (s : Session) (keyword : String) (f : Filter) (fs : List Filter)
    (hstage : s.stage = .initial)
    (hkw : extract_product_keyword msg = some keyword)
    (hfs : get_available_filters keyword = f :: fs) :
    chat_dispatch env ss1 sid msg s =
      (dictUpsert ss1 sid { s with
         product_keyword := some keyword
         stage := .gettingFilters
         available_filters := f :: fs },
       { message := "Great! I found filters for " ++ keyword
           ++ ". Let\x27s refine your search step by step.\n\n"
           ++ filterPrompt f
         has_products := false
         products := []
         filter_options := f.options
         filter_name := some f.name }) := by
  unfold chat_dispatch
  rw [hstage]
  dsimp only
  rw [hkw]
  dsimp only
  rw [hfs]

/-- Dispatch, COLLECTING_FILTERS at the last filter, search returns: the
answer is recorded, the filtered search runs with the stored keyword and the
full answer map, the session resets, and the raw search result is emitted
(services.py 159-178). -/
theorem chat_dispatch_complete_ok (env : Env) (ss1 : Sessions)
    (sid msg : String) (s : Session) (f : Filter) (results : List Product)
    (hstage : s.stage = .gettingFilters)
    (hf : s.available_filters[s.current_filter_index]? = some f)
    (hnext : s.available_filters[s.current_filter_index + 1]? = none)
    (hok : search_with_filters env (pyStr s.product_keyword)
      (dictUpsert s.current_filters f.param (pyStrip msg)) =
        Except.ok results) :
    chat_dispatch env ss1 sid msg s =
      (dictUpsert ss1 sid freshSession,
       { message := "Here are your filtered results for "
           ++ pyStr s.product_keyword ++ ":"
         has_products := true
         products := results }) := by
  unfold chat_dispatch
  rw [hstage]
  dsimp only
  rw [hf]
  dsimp only
  rw [hnext]
  dsimp only
  rw [hok]

/-- Dispatch, COLLECTING_FILTERS at the last filter, the query construction
raises (services.py 630): the handler at 189-196 emits the apology and the
session stays stored with everything answered and stage "searching". -/
theorem chat_dispatch_complete_error (env : Env) (ss1 : Sessions)
    (sid msg : String) (s : Session) (f : Filter)
    (hstage : s.stage = .gettingFilters)
    (hf : s.available_filters[s.current_filter_index]? = some f)
    (hnext : s.available_filters[s.current_filter_index + 1]? = none)
    (herr : search_with_filters env (pyStr s.product_keyword)
      (dictUpsert s.current_filters f.param (pyStrip msg)) =
        Except.error ()) :
    chat_dispatch env ss1 sid msg s =
      (dictUpsert ss1 sid { s with
         current_filters := dictUpsert s.current_filters f.param (pyStrip msg)
         current_filter_index := s.current_filter_index + 1
         stage := .searching },
       chatError) := by
  unfold chat_dispatch
  rw [hstage]
  dsimp only
  rw [hf]
  dsimp only
  rw [hnext]
  dsimp only
  rw [herr]

/-- Dispatch on a session stored in SEARCHING (left there by a crashed
filtered search): the fall-through at services.py 180-187 answers with the
substring-matched canned conversational reply and changes nothing. -/
theorem chat_dispatch_searching (env : Env) (ss1 : Sessions)
    (sid msg : String) (s : Session) (hstage : s.stage = .searching) :
    chat_dispatch env ss1 sid msg s = (ss1, convResponse msg) := by
  unfold chat_dispatch
  rw [hstage]

/-- The one-shot pipeline on a non-empty candidate list yields a non-empty
truncated result. -/
theorem oneshot_pipeline_ne_nil (env : Env) (fresh : Nat → Nat) (q : String)
    (l : List Product) (hl : l ≠ []) :
    (rank_products fresh (analyze_products_with_ai env l q)).take 10
      ≠ [] := by
  have h1 : 0 < l.length := List.length_pos.mpr hl
  have h2 : 0 < ((rank_products fresh
      (analyze_products_with_ai env l q)).take 10).length := by
    rw [List.length_take, length_rank_products, length_analyze]
    omega
  exact List.ne_nil_of_length_pos h2

/-- On an unpoisoned batch the checked ranker is the plain ranker. -/
theorem rank_products_checked_clean (fresh : Nat → Nat) (l : List Product) :
    rank_products_checked fresh l false = Except.ok (rank_products fresh l) :=
  rfl

/-- The one-shot recovery path cannot go empty unless the scoring pass
poisons the fallback batch too. -/
theorem oneshot_recover_ne_nil (env : Env) (fresh : Nat → Nat)
    (query : String)
    (hpois : batchPoisoned env (get_fallback_products query) = false) :
    (oneshot_recover env fresh query).products ≠ [] := by
  unfold oneshot_recover
  dsimp only
  rw [hpois, rank_products_checked_clean]
  exact oneshot_pipeline_ne_nil env fresh query _
    (get_fallback_products_ne_nil query)

/-- The one-shot recovery path never exceeds ten products (it slices to 10
or returns the empty error response). -/
theorem oneshot_recover_le_ten (env : Env) (fresh : Nat → Nat)
    (query : String) :
    (oneshot_recover env fresh query).products.length ≤ 10 := by
  unfold oneshot_recover
  dsimp only
  split
  · exact List.length_take_le 10 _
  · simp

/-! ## Claim theorems -/

/-- C6: for every list of scored candidates, the sort inside `_rank_products`
orders descending by `relevanceScore` (with absent scores read as 0) and is
stable: at every fixed score value the output lists the candidates in their
input order. -/
theorem ranker_sort_descending_stable (products : List Product) :
    (rank_sorted products).Pairwise (fun a b => rankKey b ≤ rankKey a) ∧
    ∀ q : ℚ, (rank_sorted products).filter (fun p => rankKey p = q) =
      products.filter (fun p => rankKey p = q) :=
  ⟨pairwise_pySorted products, fun q => filter_pySorted products q⟩

/-- C4: after processing any message on any reachable session map, every
stored session satisfies `len(answeredFilters) == nextFilterIndex` and
`0 ≤ nextFilterIndex ≤ len(filterSequence)`. -/
theorem session_invariant_after_message (env : Env) (ss : Sessions)
    (sid msg : String) (h : ReachableSessions ss) :
    ∀ k s, dictLookup (process_chat_message env ss sid msg).1 k = some s →
      s.current_filters.length = s.current_filter_index ∧
      s.current_filter_index ≤ s.available_filters.length := by
  intro k s hl
  have hg := allGood_step env ss sid msg (allGood_reachable ss h) k s hl
  exact ⟨hg.1, hg.2.1⟩

/-- Witness for C4 at a concrete step: the first message of a fresh session
leaves the invariant intact. -/
theorem session_invariant_after_message_witness :
    freshSession.current_filters.length = freshSession.current_filter_index ∧
    freshSession.current_filter_index ≤
      freshSession.available_filters.length :=
  session_invariant_after_message envUnconfigured [] "w4" "good morning"
    ReachableSessions.start "w4" freshSession (by decide)

/-- C2 counterexample: an unhandled exception while a dialogue is
mid-collection emits the generic apology but leaves the partially answered
session exactly as it was — it is not reset to a fresh INITIAL state. -/
theorem fault_leaves_partial_session :
    (process_chat_message envFaulty [("default", midDialogue)] "default"
      "₹30,000 - ₹50,000").2 = chatError ∧
    dictLookup (process_chat_message envFaulty [("default", midDialogue)]
      "default" "₹30,000 - ₹50,000").1 "default" = some midDialogue ∧
    midDialogue ≠ freshSession := by
  decide

/-- C2 amended: on an unhandled exception the generic start-over message is
emitted, but the session map is left exactly as it stood after the lazy
initialization: stored keyword, filter sequence, answered filters and cursor
all survive the error. -/
theorem fault_emits_error_and_preserves_sessions (env : Env) (ss : Sessions)
    (sid msg : String) (hfault : env.fault = true) :
    (process_chat_message env ss sid msg).2 = chatError ∧
    (process_chat_message env ss sid msg).1 =
      (if (dictLookup ss sid).isSome then ss
       else dictUpsert ss sid freshSession) := by
  rw [process_chat_message_fault env ss sid msg hfault]
  exact ⟨rfl, rfl⟩

/-- Witness for the amended C2 at a concrete faulty turn. -/
theorem fault_emits_error_and_preserves_sessions_witness :
    (process_chat_message envFaulty [("w2", midDialogue)] "w2" "x").2 =
      chatError ∧
    (process_chat_message envFaulty [("w2", midDialogue)] "w2" "x").1 =
      (if (dictLookup [("w2", midDialogue)] "w2").isSome
       then [("w2", midDialogue)]
       else dictUpsert [("w2", midDialogue)] "w2" freshSession) :=
  fault_emits_error_and_preserves_sessions envFaulty [("w2", midDialogue)]
    "w2" "x" rfl

/-- C1 counterexample: a completed filter dialogue (laptop; brand HP, price
band, processor, RAM answered; retrieval port unconfigured) emits a product
whose `relevance_score` is absent — the emitted list was neither scored per
4.3 nor ranked per 4.4. -/
theorem completed_dialogue_emits_unscored :
    (process_chat_message envUnconfigured [("default", laptopDialogueLast)]
      "default" "8GB").2.has_products = true ∧
    (process_chat_message envUnconfigured [("default", laptopDialogueLast)]
      "default" "8GB").2.products.map (fun p => p.relevance_score) =
      [none] := by
  decide

/-- C1 amended: when the last remaining filter is answered, the machine
invokes the filtered retrieval with the stored product keyword and the full
answered-filters map; whenever that retrieval returns a candidate list (its
query construction raises instead when the stored price answer contains
"Under" without "₹"), the machine emits that list directly — without scoring
(4.3) or ranking (4.4). -/
theorem completed_dialogue_emits_raw_results (env : Env) (ss : Sessions)
    (sid msg : String) (s : Session) (f : Filter) (results : List Product)
    (hl : dictLookup ss sid = some s)
    (hfault : env.fault = false)
    (hstage : s.stage = .gettingFilters)
    (hf : s.available_filters[s.current_filter_index]? = some f)
    (hnext : s.available_filters[s.current_filter_index + 1]? = none)
    (hok : search_with_filters env (pyStr s.product_keyword)
      (dictUpsert s.current_filters f.param (pyStrip msg)) =
        Except.ok results) :
    (process_chat_message env ss sid msg).2.products = results ∧
    (process_chat_message env ss sid msg).2.has_products = true := by
  rw [process_chat_message_of_lookup env ss sid msg s hl hfault,
    chat_dispatch_complete_ok env ss sid msg s f results hstage hf hnext hok]
  exact ⟨rfl, rfl⟩

/-- Witness for the amended C1 at a concrete completed dialogue: the emitted
list is exactly the raw filtered-fallback result. -/
theorem completed_dialogue_emits_raw_results_witness :
    (process_chat_message envUnconfigured [("w1", laptopDialogueLast)] "w1"
      "8GB").2.products =
      get_filtered_fallback_products "laptop"
        (dictUpsert laptopDialogueLast.current_filters "ram"
          (pyStrip "8GB")) ∧
    (process_chat_message envUnconfigured [("w1", laptopDialogueLast)] "w1"
      "8GB").2.has_products = true :=
  completed_dialogue_emits_raw_results envUnconfigured
    [("w1", laptopDialogueLast)] "w1" "8GB" laptopDialogueLast
    ⟨"RAM", "ram", ["4GB", "8GB", "16GB", "32GB"]⟩
    (get_filtered_fallback_products "laptop"
      (dictUpsert laptopDialogueLast.current_filters "ram" (pyStrip "8GB")))
    (by decide) rfl rfl (by decide) (by decide) rfl

/-- C9 counterexample: the greeting "hello" (no product keyword, fresh
session) is answered with the fixed clarifying prompt of services.py 130-135,
not with the substring-selected canned greeting of services.py 758-777. -/
theorem greeting_gets_clarifying_prompt :
    (process_chat_message envUnconfigured [] "default" "hello").2.message =
      clarifyResponse.message ∧
    (process_chat_message envUnconfigured [] "default" "hello").2.message ≠
      generate_conversational_response "hello" := by
  decide

/-- C9 amended: a message that matches no product keyword while the session
is in INITIAL is answered with the one fixed clarifying prompt, not a
substring-matched canned reply; the canned replies are emitted for messages
arriving on a session stored in SEARCHING (left behind by a crashed filtered
search, services.py 630 and 180-187); in both cases the session map is
unchanged. -/
theorem conversational_replies_by_stage (env : Env) (ss : Sessions)
    (sid msg : String) (s : Session)
    (hl : dictLookup ss sid = some s)
    (hfault : env.fault = false) :
    (s.stage = .initial → extract_product_keyword msg = none →
      (process_chat_message env ss sid msg).2 = clarifyResponse ∧
      (process_chat_message env ss sid msg).1 = ss) ∧
    (s.stage = .searching →
      (process_chat_message env ss sid msg).2 = convResponse msg ∧
      (process_chat_message env ss sid msg).1 = ss) := by
  constructor
  · intro hstage hkw
    rw [process_chat_message_of_lookup env ss sid msg s hl hfault,
      chat_dispatch_noKeyword env ss sid msg s hstage hkw]
    exact ⟨rfl, rfl⟩
  · intro hstage
    rw [process_chat_message_of_lookup env ss sid msg s hl hfault,
      chat_dispatch_searching env ss sid msg s hstage]
    exact ⟨rfl, rfl⟩

/-- Witness for the amended C9: "thanks" in INITIAL gets the clarifying
prompt, while "hello" on the crashed SEARCHING session gets the canned
greeting. -/
theorem conversational_replies_by_stage_witness :
    ((process_chat_message envUnconfigured [("w9", freshSession)] "w9"
        "thanks").2 = clarifyResponse ∧
      (process_chat_message envUnconfigured [("w9", freshSession)] "w9"
        "thanks").1 = [("w9", freshSession)]) ∧
    ((process_chat_message envUnconfigured [("w9b", crashedDialogue)] "w9b"
        "hello").2 = convResponse "hello" ∧
      (process_chat_message envUnconfigured [("w9b", crashedDialogue)] "w9b"
        "hello").1 = [("w9b", crashedDialogue)]) :=
  ⟨(conversational_replies_by_stage envUnconfigured [("w9", freshSession)]
      "w9" "thanks" freshSession (by decide) rfl).1 rfl (by decide),
   (conversational_replies_by_stage envUnconfigured
      [("w9b", crashedDialogue)] "w9b" "hello" crashedDialogue
      (by decide) rfl).2 rfl⟩

/-- C10: the filter catalog never returns an empty list (the default branch
already has two filters), so a recognized keyword in INITIAL always enters
the filter dialogue: the response prompts the first filter and the stored
session moves to COLLECTING_FILTERS — the immediate-search branch of the
spec is unreachable. -/
theorem keyword_always_enters_filter_dialogue (env : Env) (ss : Sessions)
    (sid msg keyword : String) (s : Session)
    (hl : dictLookup ss sid = some s)
    (hfault : env.fault = false)
    (hstage : s.stage = .initial)
    (hkw : extract_product_keyword msg = some keyword) :
    (∀ kw : String, get_available_filters kw ≠ []) ∧
    ∃ f fs, get_available_filters keyword = f :: fs ∧
      (process_chat_message env ss sid msg).2.has_products = false ∧
      (process_chat_message env ss sid msg).2.products = [] ∧
      (process_chat_message env ss sid msg).2.filter_name = some f.name ∧
      (process_chat_message env ss sid msg).2.filter_options = f.options ∧
      dictLookup (process_chat_message env ss sid msg).1 sid =
        some { s with
          product_keyword := some keyword
          stage := .gettingFilters
          available_filters := f :: fs } := by
  have hne : ∀ kw : String, get_available_filters kw ≠ [] := by
    intro kw hnil
    have := get_available_filters_length kw
    rw [hnil] at this
    exact absurd this (by decide)
  refine ⟨hne, ?_⟩
  cases hfs : get_available_filters keyword with
  | nil => exact absurd hfs (hne keyword)
  | cons f fs =>
    refine ⟨f, fs, rfl, ?_⟩
    rw [process_chat_message_of_lookup env ss sid msg s hl hfault,
      chat_dispatch_keyword env ss sid msg s keyword f fs hstage hkw hfs]
    exact ⟨rfl, rfl, rfl, rfl, dictLookup_dictUpsert_self _ _ _⟩

/-- Witness for C10: "I need a smartphone" prompts the Brand filter. -/
theorem keyword_always_enters_filter_dialogue_witness :
    get_available_filters "smartphone" ≠ [] ∧
    (process_chat_message envUnconfigured [("w10", freshSession)] "w10"
      "I need a smartphone").2.has_products = false := by
  have h := keyword_always_enters_filter_dialogue envUnconfigured
    [("w10", freshSession)] "w10" "I need a smartphone" "smartphone"
    freshSession (by decide) rfl rfl (by decide)
  obtain ⟨f, fs, _, hhp, _⟩ := h.2
  exact ⟨h.1 "smartphone", hhp⟩

/-- Updating only the explanation of a product changes neither filter
test. -/
theorem keep_of_explanation_update (filters : List (String × String))
    (p : Product) :
    brandKeep filters (withFilterExplanation filters p) =
      brandKeep filters p ∧
    priceKeep filters (withFilterExplanation filters p) =
      priceKeep filters p :=
  ⟨rfl, rfl⟩

/-- C5: the filtered fallback applies the brand and price tests to the
catalog entries; when every entry is rejected it returns the full unfiltered
catalog, and in every case the result is non-empty; when some entry
survives, everything returned passed both tests. -/
theorem filtered_fallback_never_empty (keyword : String)
    (filters : List (String × String)) :
    get_filtered_fallback_products keyword filters ≠ [] ∧
    ((∀ p ∈ get_fallback_products keyword,
        ¬(brandKeep filters p = true ∧ priceKeep filters p = true)) →
      get_filtered_fallback_products keyword filters =
        get_fallback_products keyword) ∧
    ((∃ p ∈ get_fallback_products keyword,
        brandKeep filters p = true ∧ priceKeep filters p = true) →
      ∀ q ∈ get_filtered_fallback_products keyword filters,
        brandKeep filters q = true ∧ priceKeep filters q = true) := by
  refine ⟨get_filtered_fallback_products_ne_nil keyword filters, ?_, ?_⟩
  · intro hall
    unfold get_filtered_fallback_products
    dsimp only
    have hnil : (get_fallback_products keyword).filterMap (fun p =>
        if brandKeep filters p && priceKeep filters p then
          some (withFilterExplanation filters p)
        else none) = [] := by
      rw [List.filterMap_eq_nil_iff]
      intro p hp
      rw [if_neg]
      intro hkeep
      exact hall p hp ⟨(Bool.and_eq_true _ _).mp hkeep |>.1,
        (Bool.and_eq_true _ _).mp hkeep |>.2⟩
    rw [hnil]
    rfl
  · intro hex q hq
    unfold get_filtered_fallback_products at hq
    dsimp only at hq
    split at hq
    · rename_i hemp
      obtain ⟨p, hp, hbk, hpk⟩ := hex
      have hmem : withFilterExplanation filters p
          ∈ (get_fallback_products keyword).filterMap (fun p =>
            if brandKeep filters p && priceKeep filters p then
              some (withFilterExplanation filters p)
            else none) := by
        rw [List.mem_filterMap]
        exact ⟨p, hp, by rw [if_pos (by rw [hbk, hpk]; rfl)]⟩
      rw [List.isEmpty_iff.mp hemp] at hmem
      exact absurd hmem (List.not_mem_nil _)
    · rw [List.mem_filterMap] at hq
      obtain ⟨p, hp, hfp⟩ := hq
      by_cases hc : brandKeep filters p && priceKeep filters p
      · rw [if_pos hc] at hfp
        have hqp := Option.some_inj.mp hfp
        obtain ⟨hbk, hpk⟩ := (Bool.and_eq_true _ _).mp hc
        rw [← hqp]
        exact ⟨(keep_of_explanation_update filters p).1.trans hbk,
          (keep_of_explanation_update filters p).2.trans hpk⟩
      · rw [if_neg hc] at hfp
        exact absurd hfp (by simp)

/-- Witness for C5 at the spec scenario: brand "Samsung" against the laptop
catalog rejects everything, so the full (non-empty) catalog comes back. -/
theorem filtered_fallback_never_empty_witness :
    get_filtered_fallback_products "laptop" [("brand", "Samsung")] =
      get_fallback_products "laptop" ∧
    get_filtered_fallback_products "laptop" [("brand", "Samsung")] ≠ [] :=
  ⟨(filtered_fallback_never_empty "laptop" [("brand", "Samsung")]).2.1
      (by decide),
   (filtered_fallback_never_empty "laptop" [("brand", "Samsung")]).1⟩

/-- The identifiers handed out by the formatting pass are the generator
applied to consecutive positions. -/
theorem map_id_formatAll (fresh : Nat → Nat) (i : Nat) (l : List Product) :
    (formatAll fresh i l).map (fun fp => fp.id) =
      (List.range' i l.length).map fresh := by
  induction l generalizing i with
  | nil => rfl
  | cons p ps ih =>
    simp only [formatAll, List.map_cons, List.length_cons, List.range',
      formatProduct]
    rw [ih]

/-- Every formatted product arises from some sorted input product. -/
theorem mem_formatAll (fresh : Nat → Nat) (i : Nat) (l : List Product)
    (fp : FormattedProduct) (h : fp ∈ formatAll fresh i l) :
    ∃ p ∈ l, ∃ j, fp = formatProduct fresh j p := by
  induction l generalizing i with
  | nil => exact absurd h (List.not_mem_nil fp)
  | cons q qs ih =>
    rcases List.mem_cons.mp h with hq | hmem
    · exact ⟨q, List.mem_cons_self q qs, i, hq⟩
    · obtain ⟨p, hp, j, hj⟩ := ih (i + 1) hmem
      exact ⟨p, List.mem_cons_of_mem q hp, j, hj⟩

/-- C7 counterexample: `_rank_products` on eleven scored candidates returns
eleven formatted products — the Ranker itself does not truncate to ten. -/
theorem rank_products_does_not_truncate :
    ¬ ((rank_products (fun i => i) elevenProducts).length ≤ 10) := by
  decide

/-- C7 amended: `_rank_products` formats and returns every input candidate —
fresh pairwise-distinct identifiers and the display defaults for absent
fields — while the truncation to the top 10 is applied by its caller, so the
one-shot search response holds at most 10 products. -/
theorem rank_formats_all_and_oneshot_truncates (fresh : Nat → Nat)
    (hfresh : Function.Injective fresh) (products : List Product) (env : Env)
    (query : String) :
    (rank_products fresh products).length = products.length ∧
    ((rank_products fresh products).map (fun fp => fp.id)).Nodup ∧
    (∀ fp ∈ rank_products fresh products, ∃ p ∈ products,
      fp.title = p.title.getD "Unknown Product" ∧
      fp.price = p.price.getD "Price not available" ∧
      fp.currency = "₹" ∧
      fp.image_url = p.image_url.getD "/static/placeholder-product.svg" ∧
      fp.availability = "In Stock" ∧
      fp.source = p.source.getD "Unknown" ∧
      fp.url = p.url.getD "#" ∧
      fp.relevance_score = p.relevance_score.getD (1 / 2) ∧
      fp.explanation =
        p.explanation.getD "Recommended based on your search criteria") ∧
    (process_search_query env fresh query).products.length ≤ 10 := by
  refine ⟨length_rank_products fresh products, ?_, ?_, ?_⟩
  · rw [rank_products, map_id_formatAll]
    exact (List.nodup_range' 0 _).map hfresh
  · intro fp hfp
    obtain ⟨p, hp, j, hj⟩ := mem_formatAll fresh 0 _ fp hfp
    refine ⟨p, mem_pySorted.mp hp, ?_⟩
    rw [hj]
    exact ⟨rfl, rfl, rfl, rfl, rfl, rfl, rfl, rfl, rfl⟩
  · unfold process_search_query
    cases search_products_with_serpapi env with
    | ok results =>
      dsimp only
      split
      · exact List.length_take_le 10 _
      · exact oneshot_recover_le_ten env fresh query
    | error e => exact oneshot_recover_le_ten env fresh query

/-- Witness for the amended C7. -/
theorem rank_formats_all_and_oneshot_truncates_witness :
    (rank_products (fun i => i) elevenProducts).length =
      elevenProducts.length ∧
    (process_search_query envUnconfigured (fun i => i) "pen").products.length
      ≤ 10 :=
  have h := rank_formats_all_and_oneshot_truncates (fun i => i)
    (fun _ _ hab => hab) elevenProducts envUnconfigured "pen"
  ⟨h.1, h.2.2.2⟩

/-- C8: with no scoring port configured the fallback scorer keeps order and
length and assigns position `i` the score `max(0.1, 1.0 - i*0.1)` with the
generic explanation naming the original query. -/
theorem fallback_scoring_linear_decay (env : Env) (products : List Product)
    (query : String) (hkey : env.aiKey = false) :
    (analyze_products_with_ai env products query).length = products.length ∧
    ∀ i, (hi : i < products.length) →
      (analyze_products_with_ai env products query)[i]? =
        some { products[i] with
          relevance_score := some (decayScore i)
          explanation :=
            some ("Product matches your search for: " ++ query) } := by
  have hbranch : analyze_products_with_ai env products query =
      enumMap (fun i p =>
        { p with relevance_score := some (decayScore i)
                 explanation := some ("Product matches your search for: "
                   ++ query) }) 0 products := by
    unfold analyze_products_with_ai
    rw [if_pos]
    rw [hkey]
    simp
  refine ⟨by rw [hbranch, length_enumMap], ?_⟩
  intro i hi
  have hi' : i < (enumMap (fun i p =>
      { p with relevance_score := some (decayScore i)
               explanation := some ("Product matches your search for: "
                 ++ query) }) 0 products).length := by
    rw [length_enumMap]
    exact hi
  rw [hbranch, List.getElem?_eq_getElem hi']
  rw [getElem_enumMap _ 0 products i hi hi', Nat.zero_add]

/-- Witness for C8: three candidates receive exactly 1.0, 0.9, 0.8. -/
theorem fallback_scoring_linear_decay_witness :
    (analyze_products_with_ai envUnconfigured threeProducts "cam").length =
      threeProducts.length ∧
    (analyze_products_with_ai envUnconfigured threeProducts "cam")[1]? =
      some { threeProducts.get ⟨1, by decide⟩ with
        relevance_score := some (decayScore 1)
        explanation :=
          some ("Product matches your search for: " ++ "cam") } ∧
    decayScore 0 = 1 ∧ decayScore 1 = 9 / 10 ∧ decayScore 2 = 4 / 5 := by
  have h := fallback_scoring_linear_decay envUnconfigured threeProducts
    "cam" rfl
  refine ⟨h.1, h.2 1 (by decide), ?_, ?_, ?_⟩ <;>
    · unfold decayScore
      norm_num

/-- C3 counterexample: a chat turn that completes a filter dialogue while
the search port is configured and answers HTTP 200 with zero listings emits
a result with zero products, although the filtered fallback path exists. -/
theorem chat_search_emits_zero_products :
    (process_chat_message envConfiguredEmpty
      [("default", speakerDialogueLast)] "default"
      "Bluetooth").2.has_products = true ∧
    (process_chat_message envConfiguredEmpty
      [("default", speakerDialogueLast)] "default"
      "Bluetooth").2.products = [] := by
  decide

/-- C3 amended: the one-shot search returns at least one product unless the
configured scoring port injects a non-comparable relevance_score (which
makes the sort raise and, on the retried fallback batch, lands in the inner
except at services.py 74-79 with zero products); the chat filtered search
returns an empty candidate list only when the port is configured and itself
returned zero listings (every unconfigured/rate-limited/error path falls
back to a non-empty catalog); and every stored session sits in one of the
three defined stages, where SEARCHING occurs only for fully answered
dialogues whose filtered search crashed. -/
theorem oneshot_guarded_nonempty_and_stage_closure :
    (∀ env : Env, ∀ fresh : Nat → Nat, ∀ query : String,
      (env.aiKey = false ∨ ∀ i, env.ai i ≠ AiOutcome.okGarbage) →
      (process_search_query env fresh query).products ≠ []) ∧
    (∀ env : Env, ∀ keyword : String, ∀ filters : List (String × String),
      search_with_filters env keyword filters = Except.ok [] →
      env.serpapiKey = true ∧ env.serp = SerpOutcome.ok []) ∧
    (∀ ss : Sessions, ReachableSessions ss → ∀ k s,
      dictLookup ss k = some s →
      (s.stage = Stage.initial ∨ s.stage = Stage.gettingFilters ∨
        s.stage = Stage.searching) ∧
      (s.stage = Stage.searching →
        s.current_filter_index = s.available_filters.length)) := by
  refine ⟨?_, ?_, ?_⟩
  · intro env fresh query hclean
    have hpois : ∀ l : List Product, batchPoisoned env l = false := by
      intro l
      unfold batchPoisoned
      rcases hclean with h | h
      · rw [h]
        simp
      · have hany : ((List.range l.length).any
            (fun i => decide (env.ai i = AiOutcome.okGarbage))) = false := by
          rw [List.any_eq_false]
          intro i _
          simp only [decide_eq_true_eq]
          exact h i
        rw [hany]
        simp
    unfold process_search_query
    cases hs : search_products_with_serpapi env with
    | ok results =>
      dsimp only
      rw [hpois, rank_products_checked_clean]
      dsimp only
      split
      · exact oneshot_pipeline_ne_nil env fresh query _
          (get_fallback_products_ne_nil query)
      · rename_i hne
        refine oneshot_pipeline_ne_nil env fresh query _ ?_
        intro hnil
        rw [hnil] at hne
        exact hne rfl
    | error e => exact oneshot_recover_ne_nil env fresh query (hpois _)
  · intro env keyword filters hnil
    unfold search_with_filters at hnil
    cases hbq : build_search_query keyword filters with
    | error e =>
      rw [hbq] at hnil
      exact absurd hnil (by simp)
    | ok q =>
      rw [hbq] at hnil
      dsimp only at hnil
      split at hnil
      · exact absurd (Except.ok.inj hnil)
          (get_filtered_fallback_products_ne_nil _ _)
      · rename_i hkey
        cases hserp : env.serp with
        | ok results =>
          rw [hserp] at hnil
          dsimp only [serpProducts] at hnil
          refine ⟨not_not.mp hkey, ?_⟩
          rw [Except.ok.inj hnil]
        | rateLimited =>
          rw [hserp] at hnil
          exact absurd (Except.ok.inj hnil)
            (get_filtered_fallback_products_ne_nil _ _)
        | httpError =>
          rw [hserp] at hnil
          exact absurd (Except.ok.inj hnil)
            (get_filtered_fallback_products_ne_nil _ _)
        | netFail =>
          rw [hserp] at hnil
          exact absurd (Except.ok.inj hnil)
            (get_filtered_fallback_products_ne_nil _ _)
  · intro ss hreach k s hl
    have hg := allGood_reachable ss hreach k s hl
    refine ⟨?_, hg.2.2.2.2.2⟩
    cases s.stage
    · exact Or.inl rfl
    · exact Or.inr (Or.inl rfl)
    · exact Or.inr (Or.inr rfl)

/-- Witness for the amended C3: a concrete unconfigured one-shot search is
non-empty, a concrete empty chat search pins the port outcome, and a
concrete reachable session satisfies the stage facts. -/
theorem oneshot_guarded_nonempty_and_stage_closure_witness :
    (process_search_query envUnconfigured (fun i => i) "shoes").products
      ≠ [] ∧
    (envConfiguredEmpty.serpapiKey = true ∧
      envConfiguredEmpty.serp = SerpOutcome.ok []) ∧
    ((freshSession.stage = Stage.initial ∨
        freshSession.stage = Stage.gettingFilters ∨
        freshSession.stage = Stage.searching) ∧
      (freshSession.stage = Stage.searching →
        freshSession.current_filter_index =
          freshSession.available_filters.length)) := by
  refine ⟨oneshot_guarded_nonempty_and_stage_closure.1 envUnconfigured
    (fun i => i) "shoes" (Or.inl rfl), ?_, ?_⟩
  · exact oneshot_guarded_nonempty_and_stage_closure.2.1 envConfiguredEmpty
      "laptop" [("brand", "HP")] rfl
  · exact oneshot_guarded_nonempty_and_stage_closure.2.2
      (process_chat_message envUnconfigured [] "w3" "hi there").1
      (ReachableSessions.step envUnconfigured [] "w3" "hi there"
        ReachableSessions.start)
      "w3" freshSession (by decide)

end Shop
